import Mathlib

/-!
Shallow embedding of the rally-stage simulation engine (`game.py`).

The program's arithmetic is over Python floats; the embedding uses `ℚ`
with the source's decimal constants written as exact rationals
(0.22 = 11/50, 0.6 = 3/5, ...).  Python's `round(x, 2)` is embedded as
`round2` below; `random.uniform(0, 0.05)` is embedded as an explicit
`jitter` argument consumed only when `add_random` is true.
-/

namespace RallySim

/-- The surface of a stage: the three concrete `Stage` subclasses
(`GravelStage`, `AsphaltStage`, `SnowStage`) set `surface` to one of these
strings.  Tires (`Setup.tire_type`) draw from the same domain. -/
inductive Surface
  | gravel
  | asphalt
  | snow
  deriving DecidableEq, Repr

/-- The drivetrain of a car: the three concrete `Car` subclasses
(`FWDCar`, `RWDCar`, `AWDCar`). -/
inductive Drivetrain
  | FWD
  | RWD
  | AWD
  deriving DecidableEq, Repr

/-- Values of the `Setup.suspension` field. -/
inductive Suspension
  | soft
  | medium
  | stiff
  deriving DecidableEq, Repr

/-- Values of the `Setup.ride_height` field. -/
inductive RideHeight
  | low
  | medium
  | high
  deriving DecidableEq, Repr

/-- Values of the `Setup.gearing` field. -/
inductive Gearing
  | short
  | medium
  | long
  deriving DecidableEq, Repr

/-- Embeds `Stage` (game.py lines 5-42): a race segment.  The three concrete
subclasses differ only in the `surface` tag, carried here as a field. -/
structure Stage where
  name : String
  length_km : ℚ
  roughness : ℚ
  speed : ℚ
  description : String
  surface : Surface
  deriving DecidableEq, Repr

/-- Embeds `Car` (game.py lines 45-85): a vehicle.  The three concrete subclasses
differ only in the `drivetrain` tag and the `control_risk` table. -/
structure Car where
  name : String
  power : ℚ
  weight : ℚ
  reliability : ℚ
  drivetrain : Drivetrain
  deriving DecidableEq, Repr

/-- Embeds `Car.control_risk` (game.py lines 62-85): per-drivetrain, per-surface
base risk.  FWD → 0.1 on gravel/snow, RWD → 0.15 on gravel/snow,
AWD → 0 always. -/
def Car.control_risk (car : Car) (stage_type : Surface) : ℚ :=
  match car.drivetrain with
  | Drivetrain.FWD => if stage_type = Surface.gravel ∨ stage_type = Surface.snow then 1/10 else 0
  | Drivetrain.RWD => if stage_type = Surface.gravel ∨ stage_type = Surface.snow then 3/20 else 0
  | Drivetrain.AWD => 0

/-- Embeds `surface_penalty` (game.py lines 23-42): every concrete stage subclass
returns `car.control_risk(self.surface)`. -/
def Stage.surface_penalty (stage : Stage) (car : Car) : ℚ :=
  car.control_risk stage.surface

/-- Embeds `Setup` (game.py lines 88-93). -/
structure Setup where
  suspension : Suspension
  ride_height : RideHeight
  gearing : Gearing
  tire_type : Surface
  deriving DecidableEq, Repr

/-- Embeds `SimulationResult` (game.py lines 96-101): `time_sec` is `None` on a
DNF, hence an `Option`. -/
structure SimulationResult where
  finished : Bool
  time_sec : Option ℚ
  risk : ℚ
  notes : List String
  deriving DecidableEq, Repr

/-- Python's `round(x, 2)`: round to the nearest multiple of 1/100. -/
def round2 (x : ℚ) : ℚ :=
  (round (100 * x) : ℤ) / 100

/-- game.py line 115: `base_time = stage.length_km * 60 / (0.6 + stage.speed)`. -/
def base_time (stage : Stage) : ℚ :=
  stage.length_km * 60 / (3/5 + stage.speed)

/-- game.py line 121: `power_to_weight = car.power / car.weight`. -/
def power_to_weight (car : Car) : ℚ :=
  car.power / car.weight

/-- game.py lines 122-124: `ptw_bonus = -(power_to_weight - 0.22) * stage.speed * 0.6`. -/
def ptw_bonus (stage : Stage) (car : Car) : ℚ :=
  -(power_to_weight car - 11/50) * stage.speed * (3/5)

/-- game.py lines 126-129: the power-to-weight note. -/
def ptw_notes (stage : Stage) (car : Car) : List String :=
  if ptw_bonus stage car < -(3/100) then ["Power-to-weight advantage"]
  else if ptw_bonus stage car > 3/100 then ["Car lacks power for this stage"]
  else []

/-- game.py lines 132-144, penalty part: the whole suspension rule is
guarded by `roughness > 0.6`; stiff adds 0.15, soft adds 0.1 only when
additionally `speed > 0.7`, medium adds nothing. -/
def suspension_penalty (stage : Stage) (setup : Setup) : ℚ :=
  if stage.roughness > 3/5 then
    match setup.suspension with
    | Suspension.stiff => 3/20
    | Suspension.soft => if stage.speed > 7/10 then 1/10 else 0
    | Suspension.medium => 0
  else 0

/-- game.py lines 132-144, setup-risk part of the suspension rule. -/
def suspension_risk (stage : Stage) (setup : Setup) : ℚ :=
  if stage.roughness > 3/5 then
    match setup.suspension with
    | Suspension.stiff => 1/5
    | Suspension.soft => if stage.speed > 7/10 then 1/5 else 0
    | Suspension.medium => 0
  else 0

/-- game.py lines 132-144, notes of the suspension rule. -/
def suspension_notes (stage : Stage) (setup : Setup) : List String :=
  if stage.roughness > 3/5 then
    match setup.suspension with
    | Suspension.stiff => ["Suspension too stiff for rough terrain"]
    | Suspension.soft =>
        if stage.speed > 7/10 then ["Suspension too soft for high-speed rough stage"] else []
    | Suspension.medium => []
  else []

/-- game.py lines 147-154, penalty part of the ride-height rule (guarded by
`roughness > 0.6`): low adds 0.2, medium adds 0.05, high adds nothing. -/
def ride_penalty (stage : Stage) (setup : Setup) : ℚ :=
  if stage.roughness > 3/5 then
    match setup.ride_height with
    | RideHeight.low => 1/5
    | RideHeight.medium => 1/20
    | RideHeight.high => 0
  else 0

/-- game.py lines 147-154, setup-risk part of the ride-height rule. -/
def ride_risk (stage : Stage) (setup : Setup) : ℚ :=
  if stage.roughness > 3/5 then
    match setup.ride_height with
    | RideHeight.low => 1/4
    | RideHeight.medium => 1/50
    | RideHeight.high => 0
  else 0

/-- game.py lines 147-154, notes of the ride-height rule. -/
def ride_notes (stage : Stage) (setup : Setup) : List String :=
  if stage.roughness > 3/5 then
    match setup.ride_height with
    | RideHeight.low => ["Ride height too low"]
    | _ => []
  else []

/-- game.py lines 156-159, penalty part: tire/surface mismatch adds 0.15. -/
def tire_penalty (stage : Stage) (setup : Setup) : ℚ :=
  if setup.tire_type ≠ stage.surface then 3/20 else 0

/-- game.py lines 156-159, setup-risk part: tire/surface mismatch adds 0.2. -/
def tire_risk (stage : Stage) (setup : Setup) : ℚ :=
  if setup.tire_type ≠ stage.surface then 1/5 else 0

/-- game.py lines 156-159, note of the tire rule. -/
def tire_notes (stage : Stage) (setup : Setup) : List String :=
  if setup.tire_type ≠ stage.surface then ["Wrong tire choice"] else []

/-- game.py lines 161-166, penalty part of the gearing rule. -/
def gearing_penalty (stage : Stage) (setup : Setup) : ℚ :=
  if stage.speed > 7/10 ∧ setup.gearing = Gearing.short then 2/25
  else if stage.speed < 1/2 ∧ setup.gearing = Gearing.long then 2/25
  else 0

/-- game.py lines 161-166, notes of the gearing rule. -/
def gearing_notes (stage : Stage) (setup : Setup) : List String :=
  if stage.speed > 7/10 ∧ setup.gearing = Gearing.short then
    ["Short gearing slows down on high-speed stage"]
  else if stage.speed < 1/2 ∧ setup.gearing = Gearing.long then
    ["Long gearing hurts acceleration on tight/slow stage"]
  else []

/-- The `setup_risk` accumulator of game.py lines 117-159: the sum of the
risk contributions of the suspension, ride-height and tire rules. -/
def setup_risk (stage : Stage) (setup : Setup) : ℚ :=
  suspension_risk stage setup + ride_risk stage setup + tire_risk stage setup

/-- The `penalty` accumulator of game.py lines 116-169: sum of the
rules' time contributions, plus the jitter draw when `add_random`. -/
def penalty_total (stage : Stage) (car : Car) (setup : Setup)
    (add_random : Bool) (jitter : ℚ) : ℚ :=
  ptw_bonus stage car + suspension_penalty stage setup + ride_penalty stage setup +
    tire_penalty stage setup + gearing_penalty stage setup +
    (if add_random then jitter else 0)

/-- game.py lines 179-181, risk part: 0.1 when `power_to_weight > 0.30`. -/
def power_risk1 (car : Car) : ℚ :=
  if power_to_weight car > 3/10 then 1/10 else 0

/-- game.py lines 179-181, note part. -/
def power_risk1_notes (car : Car) : List String :=
  if power_to_weight car > 3/10 then ["Car is very powerful and hard to control"] else []

/-- game.py lines 182-184, risk part: 0.05 when `roughness > 0.6` and
`power_to_weight > 0.25`. -/
def power_risk2 (stage : Stage) (car : Car) : ℚ :=
  if stage.roughness > 3/5 ∧ power_to_weight car > 1/4 then 1/20 else 0

/-- game.py lines 182-184, note part. -/
def power_risk2_notes (stage : Stage) (car : Car) : List String :=
  if stage.roughness > 3/5 ∧ power_to_weight car > 1/4 then
    ["High power on rough terrain increases risk"]
  else []

/-- game.py lines 172-184: the aggregated risk.  The source clamps
`(1 - reliability) * 0.25 + surface_penalty + setup_risk` to at most 1.0
at line 177 and only afterwards adds the two power-ceiling terms of
lines 179-184; the clamp is NOT re-applied after them. -/
def aggregate_risk (stage : Stage) (car : Car) (setup : Setup) : ℚ :=
  min ((1 - car.reliability) * (1/4) + stage.surface_penalty car + setup_risk stage setup) 1
    + power_risk1 car + power_risk2 stage car

/-- The `notes` list accumulated by game.py lines 118-184, in program
order (power-ceiling notes come last, before any DNF note). -/
def notes_total (stage : Stage) (car : Car) (setup : Setup) : List String :=
  ptw_notes stage car ++ suspension_notes stage setup ++ ride_notes stage setup ++
    tire_notes stage setup ++ gearing_notes stage setup ++
    power_risk1_notes car ++ power_risk2_notes stage car

/-- Embeds `SimulationEngine.calculate_time` (game.py lines 114-190).  The random
draw `random.uniform(0, 0.05)` is passed in as `jitter`, consumed only
when `add_random` is true (it enters the time penalty only). -/
def calculate_time (stage : Stage) (car : Car) (setup : Setup)
    (add_random : Bool) (jitter : ℚ) : SimulationResult :=
  if aggregate_risk stage car setup > 17/20 then
    { finished := false
      time_sec := none
      risk := round2 (aggregate_risk stage car setup)
      notes := notes_total stage car setup ++ ["Crash / DNF due to reliability or setup"] }
  else
    { finished := true
      time_sec := some (round2 (base_time stage *
        (1 + penalty_total stage car setup add_random jitter)))
      risk := round2 (aggregate_risk stage car setup)
      notes := notes_total stage car setup }

/-- Embeds `SimulationEngine.run` (game.py lines 192-193): stochastic evaluation;
`jitter` is the value drawn by `random.uniform(0, 0.05)`. -/
def run (stage : Stage) (car : Car) (setup : Setup) (jitter : ℚ) : SimulationResult :=
  calculate_time stage car setup true jitter

/-- The synthetic reference setup of `predict_optimal_time` (game.py line 196). -/
def optimal_setup (stage : Stage) : Setup :=
  { suspension := Suspension.medium
    ride_height := RideHeight.medium
    gearing := Gearing.medium
    tire_type := stage.surface }

/-- The synthetic reference car of `predict_optimal_time` (game.py line 197). -/
def optimal_car : Car :=
  { name := "Optimal AWD"
    power := 300
    weight := 1300
    reliability := 19/20
    drivetrain := Drivetrain.AWD }

/-- Embeds `SimulationEngine.predict_optimal_time` (game.py lines 195-199). -/
def predict_optimal_time (stage : Stage) : Option ℚ :=
  let result := calculate_time stage optimal_car (optimal_setup stage) false 0
  if result.finished then result.time_sec else none

/-- Zero-padding of Python's `f"{n:02d}"` for the values arising here. -/
def pad2 (n : ℤ) : String :=
  if 0 ≤ n ∧ n < 10 then ("0" ++ toString n) else toString n

/-- Embeds `format_time` (game.py lines 104-109).  Python's `seconds // 60` is
`⌊seconds / 60⌋`, `seconds % 60` is `seconds - 60 * ⌊seconds / 60⌋`
(non-negative), and `int` truncates, which on the non-negative
`remaining_seconds` and `(remaining_seconds - secs) * 100` is the floor. -/
def format_time (seconds : ℚ) : String :=
  let minutes : ℤ := ⌊seconds / 60⌋
  let remaining : ℚ := seconds - 60 * (⌊seconds / 60⌋ : ℚ)
  let secs : ℤ := ⌊remaining⌋
  let hundredths : ℤ := ⌊(remaining - (secs : ℚ)) * 100⌋
  pad2 minutes ++ ":" ++ pad2 secs ++ ":" ++ pad2 hundredths

/-- Validity of a stage per the spec's data model: `lengthKm` positive,
`roughness` and `speed` in [0,1]. -/
def Stage.valid (stage : Stage) : Prop :=
  0 < stage.length_km ∧ 0 ≤ stage.roughness ∧ stage.roughness ≤ 1 ∧
    0 ≤ stage.speed ∧ stage.speed ≤ 1

/-- Validity of a car per the spec's data model: `power` and `weight`
positive, `reliability` in [0,1]. -/
def Car.valid (car : Car) : Prop :=
  0 < car.power ∧ 0 < car.weight ∧ 0 ≤ car.reliability ∧ car.reliability ≤ 1

/-! ### General helper lemmas -/

lemma floor_eq_of (x : ℚ) (n : ℤ) (h1 : (n : ℚ) ≤ x) (h2 : x < n + 1) : ⌊x⌋ = n :=
  Int.floor_eq_iff.mpr ⟨h1, h2⟩

lemma round2_eq_of (x : ℚ) (n : ℤ) (h1 : (n : ℚ) ≤ 100 * x + 1/2)
    (h2 : 100 * x + 1/2 < n + 1) : round2 x = (n : ℚ) / 100 := by
  unfold round2
  rw [round_eq, Int.floor_eq_iff.mpr ⟨h1, h2⟩]

lemma round2_mono {x y : ℚ} (h : x ≤ y) : round2 x ≤ round2 y := by
  unfold round2
  have hr : round (100 * x) ≤ round (100 * y) := by
    rw [round_eq, round_eq]
    exact Int.floor_mono (by linarith)
  have : ((round (100 * x) : ℤ) : ℚ) ≤ ((round (100 * y) : ℤ) : ℚ) := by exact_mod_cast hr
  linarith

lemma round2_nonneg {x : ℚ} (h : 0 ≤ x) : 0 ≤ round2 x := by
  have h0 : round2 0 = 0 := by
    unfold round2
    norm_num
  calc (0 : ℚ) = round2 0 := h0.symm
    _ ≤ round2 x := round2_mono h

/-! ### Basic facts about the rule contributions -/

lemma surface_penalty_nonneg (stage : Stage) (car : Car) :
    0 ≤ stage.surface_penalty car := by
  unfold Stage.surface_penalty Car.control_risk
  split <;> (try split) <;> norm_num

lemma suspension_risk_nonneg (stage : Stage) (setup : Setup) :
    0 ≤ suspension_risk stage setup := by
  unfold suspension_risk
  split <;> (try split) <;> (try split) <;> norm_num

lemma ride_risk_nonneg (stage : Stage) (setup : Setup) :
    0 ≤ ride_risk stage setup := by
  unfold ride_risk
  split <;> (try split) <;> norm_num

lemma tire_risk_nonneg (stage : Stage) (setup : Setup) :
    0 ≤ tire_risk stage setup := by
  unfold tire_risk
  split <;> norm_num

lemma setup_risk_nonneg (stage : Stage) (setup : Setup) :
    0 ≤ setup_risk stage setup := by
  have h1 := suspension_risk_nonneg stage setup
  have h2 := ride_risk_nonneg stage setup
  have h3 := tire_risk_nonneg stage setup
  unfold setup_risk
  linarith

lemma power_risk1_nonneg (car : Car) : 0 ≤ power_risk1 car := by
  unfold power_risk1
  split <;> norm_num

lemma power_risk1_le (car : Car) : power_risk1 car ≤ 1/10 := by
  unfold power_risk1
  split <;> norm_num

lemma power_risk2_nonneg (stage : Stage) (car : Car) : 0 ≤ power_risk2 stage car := by
  unfold power_risk2
  split <;> norm_num

lemma power_risk2_le (stage : Stage) (car : Car) : power_risk2 stage car ≤ 1/20 := by
  unfold power_risk2
  split <;> norm_num

lemma suspension_risk_of_smooth (stage : Stage) (h : stage.roughness ≤ 3/5)
    (setup : Setup) : suspension_risk stage setup = 0 := by
  unfold suspension_risk
  rw [if_neg (by linarith)]

lemma suspension_penalty_of_smooth (stage : Stage) (h : stage.roughness ≤ 3/5)
    (setup : Setup) : suspension_penalty stage setup = 0 := by
  unfold suspension_penalty
  rw [if_neg (by linarith)]

lemma suspension_notes_of_smooth (stage : Stage) (h : stage.roughness ≤ 3/5)
    (setup : Setup) : suspension_notes stage setup = [] := by
  unfold suspension_notes
  rw [if_neg (by linarith)]

lemma ride_risk_of_smooth (stage : Stage) (h : stage.roughness ≤ 3/5)
    (setup : Setup) : ride_risk stage setup = 0 := by
  unfold ride_risk
  rw [if_neg (by linarith)]

lemma power_risk2_of_smooth (stage : Stage) (h : stage.roughness ≤ 3/5)
    (car : Car) : power_risk2 stage car = 0 := by
  unfold power_risk2
  rw [if_neg]
  intro hc
  linarith [hc.1]

lemma suspension_risk_stiff (stage : Stage) (setup : Setup)
    (hr : 3/5 < stage.roughness) (hs : setup.suspension = Suspension.stiff) :
    suspension_risk stage setup = 1/5 := by
  unfold suspension_risk
  rw [if_pos hr, hs]

lemma ride_risk_suspension_irrelevant (stage : Stage) (setup : Setup) (s' : Suspension) :
    ride_risk stage { setup with suspension := s' } = ride_risk stage setup := rfl

lemma tire_risk_suspension_irrelevant (stage : Stage) (setup : Setup) (s' : Suspension) :
    tire_risk stage { setup with suspension := s' } = tire_risk stage setup := rfl

lemma ride_penalty_suspension_irrelevant (stage : Stage) (setup : Setup) (s' : Suspension) :
    ride_penalty stage { setup with suspension := s' } = ride_penalty stage setup := rfl

lemma tire_penalty_suspension_irrelevant (stage : Stage) (setup : Setup) (s' : Suspension) :
    tire_penalty stage { setup with suspension := s' } = tire_penalty stage setup := rfl

lemma gearing_penalty_suspension_irrelevant (stage : Stage) (setup : Setup) (s' : Suspension) :
    gearing_penalty stage { setup with suspension := s' } = gearing_penalty stage setup := rfl

lemma ride_notes_suspension_irrelevant (stage : Stage) (setup : Setup) (s' : Suspension) :
    ride_notes stage { setup with suspension := s' } = ride_notes stage setup := rfl

lemma tire_notes_suspension_irrelevant (stage : Stage) (setup : Setup) (s' : Suspension) :
    tire_notes stage { setup with suspension := s' } = tire_notes stage setup := rfl

lemma gearing_notes_suspension_irrelevant (stage : Stage) (setup : Setup) (s' : Suspension) :
    gearing_notes stage { setup with suspension := s' } = gearing_notes stage setup := rfl

/-! ### Field extraction lemmas for `calculate_time` -/

lemma calculate_time_risk (stage : Stage) (car : Car) (setup : Setup)
    (add_random : Bool) (jitter : ℚ) :
    (calculate_time stage car setup add_random jitter).risk =
      round2 (aggregate_risk stage car setup) := by
  unfold calculate_time
  split <;> rfl

lemma calculate_time_finished (stage : Stage) (car : Car) (setup : Setup)
    (add_random : Bool) (jitter : ℚ) :
    (calculate_time stage car setup add_random jitter).finished = true ↔
      aggregate_risk stage car setup ≤ 17/20 := by
  unfold calculate_time
  split
  · rename_i h
    simp only [Bool.false_eq_true, false_iff, not_le]
    exact h
  · rename_i h
    simp only [true_iff]
    linarith [not_lt.mp h]

lemma calculate_time_of_finished (stage : Stage) (car : Car) (setup : Setup)
    (add_random : Bool) (jitter : ℚ)
    (h : aggregate_risk stage car setup ≤ 17/20) :
    (calculate_time stage car setup add_random jitter).time_sec =
        some (round2 (base_time stage * (1 + penalty_total stage car setup add_random jitter))) ∧
      (calculate_time stage car setup add_random jitter).notes =
        notes_total stage car setup := by
  unfold calculate_time
  rw [if_neg (not_lt.mpr h)]
  exact ⟨rfl, rfl⟩

lemma calculate_time_of_dnf (stage : Stage) (car : Car) (setup : Setup)
    (add_random : Bool) (jitter : ℚ)
    (h : 17/20 < aggregate_risk stage car setup) :
    (calculate_time stage car setup add_random jitter).time_sec = none ∧
      (calculate_time stage car setup add_random jitter).notes =
        notes_total stage car setup ++ ["Crash / DNF due to reliability or setup"] := by
  unfold calculate_time
  rw [if_pos h]
  exact ⟨rfl, rfl⟩

/-! ### Concrete inputs used by the claim witnesses and counterexamples -/

/-- A valid stage used for C4: asphalt, roughness 0.3, speed 0.6. -/
def c4_stage : Stage :=
  ⟨"C4 stage", 10, 3/10, 3/5, "plain asphalt stage", Surface.asphalt⟩

/-- A malformed car used for C4: reliability 2 is outside [0,1]. -/
def c4_car : Car :=
  ⟨"C4 car", 220, 1000, 2, Drivetrain.AWD⟩

/-- A setup with no mismatches, used for C4. -/
def c4_setup : Setup :=
  ⟨Suspension.medium, RideHeight.medium, Gearing.medium, Surface.asphalt⟩

/-- A valid stage used for C6's witness. -/
def c6_stage : Stage :=
  ⟨"C6 stage", 21/2, 2/5, 9/10, "fast gravel stage", Surface.gravel⟩

/-- A valid car used for C6's witness. -/
def c6_car : Car :=
  ⟨"C6 car", 280, 1250, 9/10, Drivetrain.AWD⟩

/-- A setup used for C6's witness. -/
def c6_setup : Setup :=
  ⟨Suspension.soft, RideHeight.low, Gearing.short, Surface.gravel⟩

/-- A valid stage used for C10's witness. -/
def c10_stage : Stage :=
  ⟨"C10 stage", 5, 1/2, 1/2, "medium asphalt stage", Surface.asphalt⟩

/-- A valid car used for C10's witness. -/
def c10_car : Car :=
  ⟨"C10 car", 200, 1000, 9/10, Drivetrain.AWD⟩

/-- A setup used for C10's witness. -/
def c10_setup : Setup :=
  ⟨Suspension.medium, RideHeight.medium, Gearing.medium, Surface.asphalt⟩

/-! ### C9 -/

/-- C9: with randomness disabled, two invocations of the engine on identical
stage, car and setup values produce identical `SimulationResult` values,
whatever random draws would have been available — the engine holds no
residual state between calls. -/
theorem deterministic_without_randomness (stage : Stage) (car : Car) (setup : Setup)
    (j1 j2 : ℚ) :
    calculate_time stage car setup false j1 = calculate_time stage car setup false j2 := by
  simp [calculate_time, penalty_total]

/-! ### C10 -/

/-- C10: with randomness enabled, the jitter draw influences only `timeSec`:
for any two jitter values in [0, 0.05), the two runs agree on the finished
flag, the reported risk, and the full notes sequence. -/
theorem jitter_affects_only_time (stage : Stage) (car : Car) (setup : Setup)
    (j1 j2 : ℚ) (h1 : 0 ≤ j1) (h2 : j1 < 1/20) (h3 : 0 ≤ j2) (h4 : j2 < 1/20) :
    (calculate_time stage car setup true j1).finished =
        (calculate_time stage car setup true j2).finished ∧
      (calculate_time stage car setup true j1).risk =
        (calculate_time stage car setup true j2).risk ∧
      (calculate_time stage car setup true j1).notes =
        (calculate_time stage car setup true j2).notes := by
  by_cases h : aggregate_risk stage car setup > 17/20 <;>
    simp [calculate_time, h]

/-- Witness for C10 at a concrete input and the jitter pair 0 and 0.04. -/
theorem jitter_affects_only_time_witness :
    (calculate_time c10_stage c10_car c10_setup true 0).finished =
        (calculate_time c10_stage c10_car c10_setup true (1/25)).finished ∧
      (calculate_time c10_stage c10_car c10_setup true 0).risk =
        (calculate_time c10_stage c10_car c10_setup true (1/25)).risk ∧
      (calculate_time c10_stage c10_car c10_setup true 0).notes =
        (calculate_time c10_stage c10_car c10_setup true (1/25)).notes :=
  jitter_affects_only_time c10_stage c10_car c10_setup 0 (1/25)
    (by norm_num) (by norm_num) (by norm_num) (by norm_num)

/-! ### C6 -/

/-- C6: whenever the aggregated risk does not exceed 0.85, `calculate_time`
returns a Finished result whose `timeSec` is
`baseTime * (1 + penalty)` rounded to 2 decimals, with
`baseTime = lengthKm * 60 / (0.6 + speed)` and `penalty` the sum of the
fired rules' time contributions plus the jitter draw when randomness is
enabled. -/
theorem finished_time_formula (stage : Stage) (car : Car) (setup : Setup)
    (add_random : Bool) (jitter : ℚ)
    (h : aggregate_risk stage car setup ≤ 17/20) :
    (calculate_time stage car setup add_random jitter).finished = true ∧
      (calculate_time stage car setup add_random jitter).time_sec =
        some (round2 (stage.length_km * 60 / (3/5 + stage.speed) *
          (1 + (ptw_bonus stage car + suspension_penalty stage setup +
            ride_penalty stage setup + tire_penalty stage setup +
            gearing_penalty stage setup + (if add_random then jitter else 0))))) := by
  unfold calculate_time
  rw [if_neg (not_lt.mpr h)]
  exact ⟨rfl, rfl⟩

/-- Witness for C6 at a concrete low-risk input with randomness enabled. -/
theorem finished_time_formula_witness :
    (calculate_time c6_stage c6_car c6_setup true (1/50)).finished = true ∧
      (calculate_time c6_stage c6_car c6_setup true (1/50)).time_sec =
        some (round2 (c6_stage.length_km * 60 / (3/5 + c6_stage.speed) *
          (1 + (ptw_bonus c6_stage c6_car + suspension_penalty c6_stage c6_setup +
            ride_penalty c6_stage c6_setup + tire_penalty c6_stage c6_setup +
            gearing_penalty c6_stage c6_setup + (if true then (1/50 : ℚ) else 0))))) :=
  finished_time_formula c6_stage c6_car c6_setup true (1/50) (by
    norm_num [aggregate_risk, c6_stage, c6_car, c6_setup, Stage.surface_penalty,
      Car.control_risk, setup_risk, suspension_risk, ride_risk, tire_risk,
      power_risk1, power_risk2, power_to_weight, min_def])

/-! ### C4 -/

/-- C4, counterexample: at a valid stage and a malformed car (reliability 2,
outside [0,1]), the engine does not fail fast: `calculate_time` silently
carries the malformed value into the arithmetic and returns a Finished
`SimulationResult` whose reported risk is the out-of-range value -0.25. -/
theorem malformed_input_not_rejected :
    c4_stage.valid ∧ ¬ (0 ≤ c4_car.reliability ∧ c4_car.reliability ≤ 1) ∧
      (calculate_time c4_stage c4_car c4_setup false 0).finished = true ∧
      (calculate_time c4_stage c4_car c4_setup false 0).risk = -(1/4) := by
  have hagg : aggregate_risk c4_stage c4_car c4_setup = -(1/4) := by
    norm_num [aggregate_risk, c4_stage, c4_car, c4_setup, Stage.surface_penalty,
      Car.control_risk, setup_risk, suspension_risk, ride_risk, tire_risk,
      power_risk1, power_risk2, power_to_weight, min_def]
  refine ⟨?_, ?_, ?_, ?_⟩
  · norm_num [Stage.valid, c4_stage]
  · norm_num [c4_car]
  · rw [calculate_time_finished, hagg]
    norm_num
  · rw [calculate_time_risk, hagg,
      round2_eq_of (-(1/4)) (-25) (by norm_num) (by norm_num)]
    norm_num

/-- C4, amended: the engine performs no input validation at all.  A
malformed reliability (at least 2, hence outside [0,1]) flows silently
into the arithmetic: on an AWD car with matching tires, a smooth stage and
power-to-weight at most 0.30, `calculate_time` still returns a result, and
its reported risk is negative instead of any precondition failure. -/
theorem no_fail_fast_on_malformed (stage : Stage) (car : Car) (setup : Setup)
    (hrel : 2 ≤ car.reliability) (hdr : car.drivetrain = Drivetrain.AWD)
    (htire : setup.tire_type = stage.surface) (hsmooth : stage.roughness ≤ 3/5)
    (hptw : power_to_weight car ≤ 3/10) :
    (calculate_time stage car setup false 0).risk ≤ -(1/4) := by
  rw [calculate_time_risk]
  have hsurf : stage.surface_penalty car = 0 := by
    unfold Stage.surface_penalty Car.control_risk
    rw [hdr]
  have htr : tire_risk stage setup = 0 := by
    unfold tire_risk
    rw [if_neg]
    simp [htire]
  have hagg : aggregate_risk stage car setup ≤ -(1/4) := by
    unfold aggregate_risk
    rw [hsurf, power_risk2_of_smooth stage hsmooth car]
    have hp1 : power_risk1 car = 0 := by
      unfold power_risk1
      rw [if_neg (not_lt.mpr hptw)]
    rw [hp1]
    have hsr : setup_risk stage setup = 0 := by
      unfold setup_risk
      rw [suspension_risk_of_smooth stage hsmooth setup,
        ride_risk_of_smooth stage hsmooth setup, htr]
      norm_num
    rw [hsr]
    have hle : (1 - car.reliability) * (1/4) + 0 + 0 ≤ -(1/4) := by linarith
    calc min ((1 - car.reliability) * (1/4) + 0 + 0) 1 + 0 + 0
        ≤ (1 - car.reliability) * (1/4) + 0 + 0 + 0 + 0 := by
          have := min_le_left ((1 - car.reliability) * (1/4) + 0 + 0) 1
          linarith
      _ ≤ -(1/4) := by linarith
  calc round2 (aggregate_risk stage car setup) ≤ round2 (-(1/4)) := round2_mono hagg
    _ = -(1/4) := by
        rw [round2_eq_of (-(1/4)) (-25) (by norm_num) (by norm_num)]
        norm_num

/-- Witness for C4's amended theorem at the concrete malformed input. -/
theorem no_fail_fast_on_malformed_witness :
    (calculate_time c4_stage c4_car c4_setup false 0).risk ≤ -(1/4) :=
  no_fail_fast_on_malformed c4_stage c4_car c4_setup
    (by norm_num [c4_car]) (by norm_num [c4_car]) (by norm_num [c4_setup, c4_stage])
    (by norm_num [c4_stage]) (by norm_num [power_to_weight, c4_car])

/-! ### C1 -/

/-- A valid rough gravel stage used for C1. -/
def c1_stage : Stage :=
  ⟨"C1 stage", 10, 7/10, 1/2, "rough gravel stage", Surface.gravel⟩

/-- A valid but fragile, overpowered RWD car used for C1. -/
def c1_car : Car :=
  ⟨"C1 car", 400, 1000, 0, Drivetrain.RWD⟩

/-- A maximally mismatched setup used for C1. -/
def c1_setup : Setup :=
  ⟨Suspension.stiff, RideHeight.low, Gearing.medium, Surface.asphalt⟩

/-- C1, counterexample: a valid input on which the reported risk is 1.15,
strictly above 1 — the clamp of game.py line 177 runs before the
power-ceiling terms of lines 179-184 are added, not after them. -/
theorem risk_above_one_after_clamp :
    c1_stage.valid ∧ c1_car.valid ∧
      (calculate_time c1_stage c1_car c1_setup false 0).risk = 23/20 ∧
      1 < (calculate_time c1_stage c1_car c1_setup false 0).risk := by
  have hagg : aggregate_risk c1_stage c1_car c1_setup = 23/20 := by
    simp [aggregate_risk, c1_stage, c1_car, c1_setup, Stage.surface_penalty,
      Car.control_risk, setup_risk, suspension_risk, ride_risk, tire_risk,
      power_risk1, power_risk2, power_to_weight]
    norm_num [min_def]
  have hrisk : (calculate_time c1_stage c1_car c1_setup false 0).risk = 23/20 := by
    rw [calculate_time_risk, hagg,
      round2_eq_of (23/20) 115 (by norm_num) (by norm_num)]
    norm_num
  refine ⟨?_, ?_, hrisk, ?_⟩
  · norm_num [Stage.valid, c1_stage]
  · norm_num [Car.valid, c1_car]
  · rw [hrisk]
    norm_num

/-- C1, amended: for every valid input the reported risk is rounded to
exactly 2 decimals at result construction and lies within [0, 1.15]
(not [0, 1]): the risk aggregate is clamped to at most 1.0 exactly once,
but BEFORE the power-ceiling terms of rule 8 are added, so those terms can
push the final risk above 1 by at most 0.15. -/
theorem risk_range_rounded (stage : Stage) (car : Car) (setup : Setup)
    (hs : stage.valid) (hc : car.valid) (add_random : Bool) (jitter : ℚ) :
    0 ≤ (calculate_time stage car setup add_random jitter).risk ∧
      (calculate_time stage car setup add_random jitter).risk ≤ 23/20 ∧
      ∃ n : ℤ, (calculate_time stage car setup add_random jitter).risk = (n : ℚ) / 100 := by
  rw [calculate_time_risk]
  have hrel : car.reliability ≤ 1 := hc.2.2.2
  have hsp := surface_penalty_nonneg stage car
  have hsr := setup_risk_nonneg stage setup
  have hp1 := power_risk1_nonneg car
  have hp2 := power_risk2_nonneg stage car
  have hp1u := power_risk1_le car
  have hp2u := power_risk2_le stage car
  have h0 : 0 ≤ aggregate_risk stage car setup := by
    unfold aggregate_risk
    have hmin : 0 ≤ min ((1 - car.reliability) * (1/4) + stage.surface_penalty car +
        setup_risk stage setup) 1 :=
      le_min (by linarith) (by norm_num)
    linarith
  have hup : aggregate_risk stage car setup ≤ 23/20 := by
    unfold aggregate_risk
    have hmin := min_le_right ((1 - car.reliability) * (1/4) + stage.surface_penalty car +
      setup_risk stage setup) 1
    linarith
  refine ⟨round2_nonneg h0, ?_, ⟨round (100 * aggregate_risk stage car setup), rfl⟩⟩
  calc round2 (aggregate_risk stage car setup) ≤ round2 (23/20) := round2_mono hup
    _ = 23/20 := by
        rw [round2_eq_of (23/20) 115 (by norm_num) (by norm_num)]
        norm_num

/-- Witness for C1's amended theorem at the concrete valid input. -/
theorem risk_range_rounded_witness :
    0 ≤ (calculate_time c1_stage c1_car c1_setup false 0).risk ∧
      (calculate_time c1_stage c1_car c1_setup false 0).risk ≤ 23/20 ∧
      ∃ n : ℤ, (calculate_time c1_stage c1_car c1_setup false 0).risk = (n : ℚ) / 100 :=
  risk_range_rounded c1_stage c1_car c1_setup
    (by norm_num [Stage.valid, c1_stage]) (by norm_num [Car.valid, c1_car]) false 0

/-! ### C2 -/

/-- A valid smooth but fast stage used for C2: roughness 0.4 ≤ 0.6 and
speed 0.9 > 0.7. -/
def c2_stage : Stage :=
  ⟨"C2 stage", 3/2, 2/5, 9/10, "smooth fast gravel stage", Surface.gravel⟩

/-- A valid neutral car used for C2: power-to-weight exactly the 0.22
baseline and perfect reliability, so no other rule fires. -/
def c2_car : Car :=
  ⟨"C2 car", 220, 1000, 1, Drivetrain.AWD⟩

/-- A soft-suspension setup with no other mismatches, used for C2. -/
def c2_setup : Setup :=
  ⟨Suspension.soft, RideHeight.medium, Gearing.medium, Surface.gravel⟩

/-- The aggregated risk at C2's concrete input is 0. -/
lemma c2_aggregate : aggregate_risk c2_stage c2_car c2_setup = 0 := by
  simp [aggregate_risk, c2_stage, c2_car, c2_setup, Stage.surface_penalty,
    Car.control_risk, setup_risk, suspension_risk, ride_risk, tire_risk,
    power_risk1, power_risk2, power_to_weight]
  norm_num [min_def]

/-- C2, counterexample: on a valid stage with roughness 0.4 ≤ 0.6,
speed 0.9 > 0.7 and soft suspension, `calculate_time` emits NO note at all
and no 0.1 time penalty: the returned time is exactly the unpenalised base
time 60.00, not 66.00, and the note list is empty — the claimed
"suspension unstable at high speed" rule does not exist in the code. -/
theorem soft_suspension_smooth_rule_missing :
    c2_stage.roughness ≤ 3/5 ∧ 7/10 < c2_stage.speed ∧
      c2_setup.suspension = Suspension.soft ∧
      c2_stage.valid ∧ c2_car.valid ∧
      (calculate_time c2_stage c2_car c2_setup false 0).notes = [] ∧
      (calculate_time c2_stage c2_car c2_setup false 0).time_sec = some 60 := by
  have h := calculate_time_of_finished c2_stage c2_car c2_setup false 0
    (by rw [c2_aggregate]; norm_num)
  refine ⟨by norm_num [c2_stage], by norm_num [c2_stage],
    rfl, by norm_num [Stage.valid, c2_stage], by norm_num [Car.valid, c2_car], ?_, ?_⟩
  · rw [h.2]
    simp [notes_total, ptw_notes, suspension_notes, ride_notes, tire_notes,
      gearing_notes, power_risk1_notes, power_risk2_notes, ptw_bonus,
      power_to_weight, c2_stage, c2_car, c2_setup]
    norm_num
  · rw [h.1]
    have hp : penalty_total c2_stage c2_car c2_setup false 0 = 0 := by
      simp [penalty_total, ptw_bonus, suspension_penalty, ride_penalty,
        tire_penalty, gearing_penalty, power_to_weight, c2_stage, c2_car, c2_setup]
      norm_num
    have hb : base_time c2_stage = 60 := by
      norm_num [base_time, c2_stage]
    rw [hp, hb]
    rw [show (60 : ℚ) * (1 + 0) = 60 by norm_num,
      round2_eq_of 60 6000 (by norm_num) (by norm_num)]
    norm_num

/-- C2, amended: when roughness ≤ 0.6 the engine applies no suspension rule
at all, whatever the speed: the entire result of `calculate_time` is
independent of the suspension setting (no 0.1 penalty, no note — the
string "suspension unstable at high speed" appears nowhere in the code;
the only soft-suspension branch needs roughness > 0.6). -/
theorem suspension_no_effect_when_smooth (stage : Stage) (car : Car) (setup : Setup)
    (s1 s2 : Suspension) (h : stage.roughness ≤ 3/5) (add_random : Bool) (jitter : ℚ) :
    calculate_time stage car { setup with suspension := s1 } add_random jitter =
      calculate_time stage car { setup with suspension := s2 } add_random jitter := by
  simp [calculate_time, aggregate_risk, penalty_total, notes_total, setup_risk,
    suspension_penalty_of_smooth stage h, suspension_risk_of_smooth stage h,
    suspension_notes_of_smooth stage h, ride_risk_suspension_irrelevant,
    tire_risk_suspension_irrelevant, ride_penalty_suspension_irrelevant,
    tire_penalty_suspension_irrelevant, gearing_penalty_suspension_irrelevant,
    ride_notes_suspension_irrelevant, tire_notes_suspension_irrelevant,
    gearing_notes_suspension_irrelevant]

/-- Witness for C2's amended theorem: soft versus stiff suspension on the
smooth C2 stage. -/
theorem suspension_no_effect_when_smooth_witness :
    calculate_time c2_stage c2_car { c2_setup with suspension := Suspension.soft } false 0 =
      calculate_time c2_stage c2_car { c2_setup with suspension := Suspension.stiff } false 0 :=
  suspension_no_effect_when_smooth c2_stage c2_car c2_setup Suspension.soft Suspension.stiff
    (by norm_num [c2_stage]) false 0

/-! ### C3 -/

/-- A valid rough gravel stage used for C3. -/
def c3_stage : Stage :=
  ⟨"C3 stage", 10, 7/10, 1/2, "rough gravel stage", Surface.gravel⟩

/-- A valid zero-reliability FWD car used for C3. -/
def c3_car : Car :=
  ⟨"C3 car", 200, 1000, 0, Drivetrain.FWD⟩

/-- A maximally mismatched setup used for C3. -/
def c3_setup : Setup :=
  ⟨Suspension.stiff, RideHeight.low, Gearing.medium, Surface.asphalt⟩

/-- The aggregated risk at C3's concrete input is exactly 1. -/
lemma c3_aggregate : aggregate_risk c3_stage c3_car c3_setup = 1 := by
  simp [aggregate_risk, c3_stage, c3_car, c3_setup, Stage.surface_penalty,
    Car.control_risk, setup_risk, suspension_risk, ride_risk, tire_risk,
    power_risk1, power_risk2, power_to_weight]
  norm_num [min_def]

/-- C3, counterexample: on a valid DNF input the trailing note the code
appends is "Crash / DNF due to reliability or setup" (capital C), not the
claimed lowercase "crash / DNF due to reliability or setup". -/
theorem dnf_note_is_capitalized :
    c3_stage.valid ∧ c3_car.valid ∧
      (calculate_time c3_stage c3_car c3_setup false 0).finished = false ∧
      (calculate_time c3_stage c3_car c3_setup false 0).notes.getLast? =
        some ("Crash / DNF due to reliability or setup") ∧
      ¬ ((calculate_time c3_stage c3_car c3_setup false 0).notes.getLast? =
        some ("crash / DNF due to reliability or setup")) := by
  have hgt : 17/20 < aggregate_risk c3_stage c3_car c3_setup := by
    rw [c3_aggregate]
    norm_num
  have h := calculate_time_of_dnf c3_stage c3_car c3_setup false 0 hgt
  have hnotes : (calculate_time c3_stage c3_car c3_setup false 0).notes =
      ["Suspension too stiff for rough terrain", "Ride height too low",
        "Wrong tire choice", "Crash / DNF due to reliability or setup"] := by
    rw [h.2]
    simp [notes_total, ptw_notes, suspension_notes, ride_notes, tire_notes,
      gearing_notes, power_risk1_notes, power_risk2_notes, ptw_bonus,
      power_to_weight, c3_stage, c3_car, c3_setup]
    norm_num
  refine ⟨by norm_num [Stage.valid, c3_stage], by norm_num [Car.valid, c3_car], ?_, ?_, ?_⟩
  · have hf := calculate_time_finished c3_stage c3_car c3_setup false 0
    rcases hb : (calculate_time c3_stage c3_car c3_setup false 0).finished with _ | _
    · rfl
    · exact absurd (hf.mp hb) (by rw [c3_aggregate]; norm_num)
  · rw [hnotes]
    rfl
  · rw [hnotes]
    intro hcontra
    simp only [List.getLast?] at hcontra
    exact absurd (Option.some.inj hcontra) (by decide)

/-- C3, amended: the outcome of `calculate_time` is DNF exactly when the
aggregated (pre-rounding) risk is strictly greater than 0.85: then
`finished` is false, `timeSec` is absent, the notes gain a trailing
"Crash / DNF due to reliability or setup" entry (capital C), and the
rounded risk is still reported; at aggregated risk 0.85 or below the
outcome is Finished with a numeric `timeSec`. -/
theorem dnf_transition (stage : Stage) (car : Car) (setup : Setup)
    (add_random : Bool) (jitter : ℚ) :
    ((calculate_time stage car setup add_random jitter).finished = false ↔
      17/20 < aggregate_risk stage car setup) ∧
    (17/20 < aggregate_risk stage car setup →
      (calculate_time stage car setup add_random jitter).time_sec = none ∧
      (calculate_time stage car setup add_random jitter).notes =
        notes_total stage car setup ++ ["Crash / DNF due to reliability or setup"] ∧
      (calculate_time stage car setup add_random jitter).risk =
        round2 (aggregate_risk stage car setup)) ∧
    (aggregate_risk stage car setup ≤ 17/20 →
      (calculate_time stage car setup add_random jitter).finished = true ∧
      ∃ x : ℚ, (calculate_time stage car setup add_random jitter).time_sec = some x) := by
  refine ⟨?_, ?_, ?_⟩
  · rcases hb : (calculate_time stage car setup add_random jitter).finished with _ | _
    · simp only [true_iff]
      by_contra hle
      have := (calculate_time_finished stage car setup add_random jitter).mpr
        (not_lt.mp hle)
      rw [hb] at this
      exact Bool.false_ne_true this
    · have := (calculate_time_finished stage car setup add_random jitter).mp hb
      simp only [Bool.true_eq_false, false_iff, not_lt]
      exact this
  · intro hgt
    have h := calculate_time_of_dnf stage car setup add_random jitter hgt
    exact ⟨h.1, h.2, calculate_time_risk stage car setup add_random jitter⟩
  · intro hle
    have h := calculate_time_of_finished stage car setup add_random jitter hle
    exact ⟨(calculate_time_finished stage car setup add_random jitter).mpr hle,
      ⟨_, h.1⟩⟩

/-- Witness for C3's amended theorem: at C3's concrete DNF input, `timeSec`
is absent. -/
theorem dnf_transition_witness :
    (calculate_time c3_stage c3_car c3_setup false 0).time_sec = none :=
  ((dnf_transition c3_stage c3_car c3_setup false 0).2.1
    (by rw [c3_aggregate]; norm_num)).1

/-! ### C7 -/

/-- A valid gravel stage template used for C7's witness (its roughness is
replaced by the two compared values). -/
def c7_stage : Stage :=
  ⟨"C7 stage", 10, 0, 1/2, "gravel stage of varying roughness", Surface.gravel⟩

/-- A valid car used for C7's witness. -/
def c7_car : Car :=
  ⟨"C7 car", 280, 1250, 9/10, Drivetrain.AWD⟩

/-- A stiff-suspension setup used for C7's witness. -/
def c7_setup : Setup :=
  ⟨Suspension.stiff, RideHeight.medium, Gearing.medium, Surface.gravel⟩

/-- C7: with stiff suspension, for any two roughness values r1 ≤ 0.6 < r2
and all other stage, car and setup fields equal (randomness disabled), the
risk reported at roughness r2 is at least the risk reported at r1. -/
theorem risk_monotone_in_roughness_stiff (stage : Stage) (car : Car) (setup : Setup)
    (r1 r2 : ℚ) (hsusp : setup.suspension = Suspension.stiff)
    (h1 : r1 ≤ 3/5) (h2 : 3/5 < r2) :
    (calculate_time { stage with roughness := r1 } car setup false 0).risk ≤
      (calculate_time { stage with roughness := r2 } car setup false 0).risk := by
  rw [calculate_time_risk, calculate_time_risk]
  apply round2_mono
  have e1 : suspension_risk { stage with roughness := r1 } setup = 0 :=
    suspension_risk_of_smooth _ h1 _
  have e2 : ride_risk { stage with roughness := r1 } setup = 0 :=
    ride_risk_of_smooth _ h1 _
  have e3 : power_risk2 { stage with roughness := r1 } car = 0 :=
    power_risk2_of_smooth _ h1 _
  have e4 : suspension_risk { stage with roughness := r2 } setup = 1/5 :=
    suspension_risk_stiff _ _ h2 hsusp
  have e5 := ride_risk_nonneg { stage with roughness := r2 } setup
  have e6 := power_risk2_nonneg { stage with roughness := r2 } car
  have etire : tire_risk { stage with roughness := r2 } setup =
      tire_risk { stage with roughness := r1 } setup := rfl
  have esurf : Stage.surface_penalty { stage with roughness := r2 } car =
      Stage.surface_penalty { stage with roughness := r1 } car := rfl
  unfold aggregate_risk setup_risk
  rw [e1, e2, e3, e4, etire, esurf]
  refine add_le_add (add_le_add (min_le_min ?_ le_rfl) le_rfl) e6
  linarith

/-- Witness for C7 at the concrete stage with roughness 0.5 versus 0.7. -/
theorem risk_monotone_in_roughness_stiff_witness :
    (calculate_time { c7_stage with roughness := 1/2 } c7_car c7_setup false 0).risk ≤
      (calculate_time { c7_stage with roughness := 7/10 } c7_car c7_setup false 0).risk :=
  risk_monotone_in_roughness_stiff c7_stage c7_car c7_setup (1/2) (7/10)
    rfl (by norm_num) (by norm_num)

/-! ### C5 -/

/-- A stage with the claim's dimensions (length 10.5 km, speed 0.9), used
for C5's witness. -/
def c5_stage : Stage :=
  ⟨"C5 stage", 21/2, 2/5, 9/10, "fast reference stage", Surface.gravel⟩

/-- The reference car's power-to-weight ratio is 3/13. -/
lemma optimal_car_ptw : power_to_weight optimal_car = 3/13 := by
  norm_num [power_to_weight, optimal_car]

/-- No rule of the reference setup fires except possibly the medium
ride-height rule; collected here for C5. -/
lemma optimal_setup_neutral (stage : Stage) :
    tire_risk stage (optimal_setup stage) = 0 ∧
      tire_penalty stage (optimal_setup stage) = 0 ∧
      suspension_risk stage (optimal_setup stage) = 0 ∧
      suspension_penalty stage (optimal_setup stage) = 0 ∧
      gearing_penalty stage (optimal_setup stage) = 0 ∧
      power_risk1 optimal_car = 0 ∧
      power_risk2 stage optimal_car = 0 ∧
      stage.surface_penalty optimal_car = 0 := by
  refine ⟨?_, ?_, ?_, ?_, ?_, ?_, ?_, rfl⟩
  · simp [tire_risk, optimal_setup]
  · simp [tire_penalty, optimal_setup]
  · simp [suspension_risk, optimal_setup]
  · simp [suspension_penalty, optimal_setup]
  · simp [gearing_penalty, optimal_setup]
  · unfold power_risk1
    rw [optimal_car_ptw, if_neg (by norm_num)]
  · unfold power_risk2
    rw [optimal_car_ptw, if_neg]
    rintro ⟨-, hc⟩
    norm_num at hc

/-- C5: `predict_optimal_time` evaluates the engine on the synthetic
reference car (AWD, power 300, weight 1300, reliability 0.95) and the
reference setup (medium suspension, ride height and gearing, tires
matching the stage surface) with randomness disabled, returning its
`timeSec` (absent on a DNF); on every stage with length 10.5 km and speed
0.9, whatever the roughness in [0,1], it returns a Finished, strictly
positive time with reported risk at most 0.85. -/
theorem predict_optimal_time_reference (stage : Stage)
    (hl : stage.length_km = 21/2) (hsp : stage.speed = 9/10)
    (h0 : 0 ≤ stage.roughness) (h1 : stage.roughness ≤ 1) :
    (predict_optimal_time stage =
      (if (calculate_time stage optimal_car (optimal_setup stage) false 0).finished then
        (calculate_time stage optimal_car (optimal_setup stage) false 0).time_sec
      else none)) ∧
    optimal_car = ⟨"Optimal AWD", 300, 1300, 19/20, Drivetrain.AWD⟩ ∧
    optimal_setup stage =
      ⟨Suspension.medium, RideHeight.medium, Gearing.medium, stage.surface⟩ ∧
    ∃ x : ℚ, predict_optimal_time stage = some x ∧ 0 < x ∧
      (calculate_time stage optimal_car (optimal_setup stage) false 0).risk ≤ 17/20 := by
  obtain ⟨htr, htp, hsr, hsp2, hgp, hp1, hp2, hsurf⟩ := optimal_setup_neutral stage
  have hbase : base_time stage = 420 := by
    rw [base_time, hl, hsp]
    norm_num
  have hptwb : ptw_bonus stage optimal_car = -(189/32500) := by
    rw [ptw_bonus, optimal_car_ptw, hsp]
    norm_num
  refine ⟨rfl, rfl, rfl, ?_⟩
  by_cases hrough : 3/5 < stage.roughness
  · -- rough branch: the medium ride-height rule fires
    have hrr : ride_risk stage (optimal_setup stage) = 1/50 := by
      unfold ride_risk
      rw [if_pos hrough]
      rfl
    have hrp : ride_penalty stage (optimal_setup stage) = 1/20 := by
      unfold ride_penalty
      rw [if_pos hrough]
      rfl
    have hagg : aggregate_risk stage optimal_car (optimal_setup stage) = 13/400 := by
      unfold aggregate_risk setup_risk
      rw [hsr, hrr, htr, hp1, hp2, hsurf]
      norm_num [optimal_car, min_def]
    have hle : aggregate_risk stage optimal_car (optimal_setup stage) ≤ 17/20 := by
      rw [hagg]
      norm_num
    have hfin := (calculate_time_finished stage optimal_car (optimal_setup stage)
      false 0).mpr hle
    have hpen : penalty_total stage optimal_car (optimal_setup stage) false 0 =
        1436/32500 := by
      unfold penalty_total
      rw [hptwb, hsp2, hrp, htp, hgp]
      norm_num
    have htime := (calculate_time_of_finished stage optimal_car (optimal_setup stage)
      false 0 hle).1
    rw [hbase, hpen] at htime
    rw [show (420 : ℚ) * (1 + 1436/32500) = 14253120/32500 by norm_num,
      round2_eq_of (14253120/32500) 43856 (by norm_num) (by norm_num)] at htime
    refine ⟨43856/100, ?_, by norm_num, ?_⟩
    · rw [predict_optimal_time]
      simp only [hfin, if_true]
      rw [htime]
      norm_num
    · rw [calculate_time_risk, hagg,
        round2_eq_of (13/400) 3 (by norm_num) (by norm_num)]
      norm_num
  · -- smooth branch: no ride-height rule
    have hsm : stage.roughness ≤ 3/5 := not_lt.mp hrough
    have hrr : ride_risk stage (optimal_setup stage) = 0 :=
      ride_risk_of_smooth stage hsm _
    have hrp : ride_penalty stage (optimal_setup stage) = 0 := by
      unfold ride_penalty
      rw [if_neg (by linarith)]
    have hagg : aggregate_risk stage optimal_car (optimal_setup stage) = 1/80 := by
      unfold aggregate_risk setup_risk
      rw [hsr, hrr, htr, hp1, hp2, hsurf]
      norm_num [optimal_car, min_def]
    have hle : aggregate_risk stage optimal_car (optimal_setup stage) ≤ 17/20 := by
      rw [hagg]
      norm_num
    have hfin := (calculate_time_finished stage optimal_car (optimal_setup stage)
      false 0).mpr hle
    have hpen : penalty_total stage optimal_car (optimal_setup stage) false 0 =
        -(189/32500) := by
      unfold penalty_total
      rw [hptwb, hsp2, hrp, htp, hgp]
      norm_num
    have htime := (calculate_time_of_finished stage optimal_car (optimal_setup stage)
      false 0 hle).1
    rw [hbase, hpen] at htime
    rw [show (420 : ℚ) * (1 + -(189/32500)) = 13570620/32500 by norm_num,
      round2_eq_of (13570620/32500) 41756 (by norm_num) (by norm_num)] at htime
    refine ⟨41756/100, ?_, by norm_num, ?_⟩
    · rw [predict_optimal_time]
      simp only [hfin, if_true]
      rw [htime]
      norm_num
    · rw [calculate_time_risk, hagg,
        round2_eq_of (1/80) 1 (by norm_num) (by norm_num)]
      norm_num

/-- Witness for C5 at the concrete stage of length 10.5 km, speed 0.9,
roughness 0.4. -/
theorem predict_optimal_time_reference_witness :
    (predict_optimal_time c5_stage =
      (if (calculate_time c5_stage optimal_car (optimal_setup c5_stage) false 0).finished then
        (calculate_time c5_stage optimal_car (optimal_setup c5_stage) false 0).time_sec
      else none)) ∧
    optimal_car = ⟨"Optimal AWD", 300, 1300, 19/20, Drivetrain.AWD⟩ ∧
    optimal_setup c5_stage =
      ⟨Suspension.medium, RideHeight.medium, Gearing.medium, c5_stage.surface⟩ ∧
    ∃ x : ℚ, predict_optimal_time c5_stage = some x ∧ 0 < x ∧
      (calculate_time c5_stage optimal_car (optimal_setup c5_stage) false 0).risk ≤ 17/20 :=
  predict_optimal_time_reference c5_stage (by norm_num [c5_stage])
    (by norm_num [c5_stage]) (by norm_num [c5_stage]) (by norm_num [c5_stage])

/-! ### C8 -/

/-- Spec-side definition, following the spec's words: `mm` is the whole
number of minutes in `s` seconds. -/
def whole_minutes (s : ℚ) : ℤ :=
  ⌊s / 60⌋

/-- Spec-side definition, following the spec's words: `ss` is the whole
number of seconds within the current minute. -/
def whole_seconds_within_minute (s : ℚ) : ℤ :=
  ⌊s⌋ % 60

/-- Spec-side definition, following the spec's words: `hh` is the number of
whole hundredths of a second within the current second. -/
def hundredths_within_second (s : ℚ) : ℤ :=
  ⌊s * 100⌋ % 100

/-- Dividing before flooring agrees with flooring before Euclidean
division, for a positive integer divisor. -/
lemma floor_div_int_pos (x : ℚ) (n : ℤ) (hn : 0 < n) :
    ⌊x / (n : ℚ)⌋ = ⌊x⌋ / n := by
  have hfl : ((⌊x⌋ : ℤ) : ℚ) ≤ x := Int.floor_le x
  have hfu : x < ((⌊x⌋ : ℤ) : ℚ) + 1 := Int.lt_floor_add_one x
  have hde : n * (⌊x⌋ / n) + ⌊x⌋ % n = ⌊x⌋ := Int.ediv_add_emod ⌊x⌋ n
  have hnq : (0 : ℚ) < (n : ℚ) := by exact_mod_cast hn
  have hcast1 : ((n : ℤ) : ℚ) * ((⌊x⌋ / n : ℤ) : ℚ) + ((⌊x⌋ % n : ℤ) : ℚ) ≤ x := by
    have : ((n * (⌊x⌋ / n) + ⌊x⌋ % n : ℤ) : ℚ) ≤ x := by
      rw [hde]
      exact hfl
    push_cast at this
    linarith
  have hcast2 : x < ((n : ℤ) : ℚ) * ((⌊x⌋ / n : ℤ) : ℚ) + ((⌊x⌋ % n : ℤ) : ℚ) + 1 := by
    have : x < ((n * (⌊x⌋ / n) + ⌊x⌋ % n : ℤ) : ℚ) + 1 := by
      rw [hde]
      exact hfu
    push_cast at this
    linarith
  apply floor_eq_of
  · rw [le_div_iff₀ hnq, mul_comm]
    have hr0q : (0 : ℚ) ≤ ((⌊x⌋ % n : ℤ) : ℚ) :=
      by exact_mod_cast Int.emod_nonneg ⌊x⌋ (ne_of_gt hn)
    linarith
  · rw [div_lt_iff₀ hnq, add_mul, one_mul, mul_comm]
    have hrnq : ((⌊x⌋ % n : ℤ) : ℚ) + 1 ≤ (n : ℚ) :=
      by exact_mod_cast Int.emod_lt_of_pos ⌊x⌋ hn
    linarith

/-- The function `format_time` realises the spec's decomposition: its three printed
fields are the whole minutes, the whole seconds within the minute, and the
whole hundredths within the second. -/
lemma format_time_components (s : ℚ) :
    format_time s = pad2 (whole_minutes s) ++ ":" ++
      pad2 (whole_seconds_within_minute s) ++ ":" ++
      pad2 (hundredths_within_second s) := by
  have e1 : ⌊s / (60 : ℚ)⌋ = ⌊s⌋ / 60 := floor_div_int_pos s 60 (by norm_num)
  have e2 : ⌊s - 60 * ((⌊s / (60 : ℚ)⌋ : ℤ) : ℚ)⌋ = ⌊s⌋ % 60 := by
    rw [e1, show (60 : ℚ) * ((⌊s⌋ / 60 : ℤ) : ℚ) = (((60 * (⌊s⌋ / 60) : ℤ)) : ℚ) by
      push_cast
      ring]
    rw [Int.floor_sub_int, (Int.emod_def ⌊s⌋ 60).symm]
  have e3 : ((s - 60 * ((⌊s / (60 : ℚ)⌋ : ℤ) : ℚ)) -
      ((⌊s - 60 * ((⌊s / (60 : ℚ)⌋ : ℤ) : ℚ)⌋ : ℤ) : ℚ)) * 100 =
      s * 100 - ((100 * ⌊s⌋ : ℤ) : ℚ) := by
    rw [e2, e1]
    have hm : ((⌊s⌋ % 60 : ℤ) : ℚ) = ((⌊s⌋ : ℤ) : ℚ) - 60 * ((⌊s⌋ / 60 : ℤ) : ℚ) := by
      rw [Int.emod_def ⌊s⌋ 60]
      push_cast
      ring
    rw [hm]
    push_cast
    ring
  have e4 : ⌊s * 100 - ((100 * ⌊s⌋ : ℤ) : ℚ)⌋ = ⌊s * 100⌋ - 100 * ⌊s⌋ :=
    Int.floor_sub_int (s * 100) (100 * ⌊s⌋)
  have e5 : ⌊s * 100⌋ / 100 = ⌊s⌋ := by
    have h100 : ⌊s * 100 / (100 : ℚ)⌋ = ⌊s * 100⌋ / 100 :=
      floor_div_int_pos (s * 100) 100 (by norm_num)
    rw [show s * 100 / (100 : ℚ) = s by ring] at h100
    exact h100.symm
  have e6 : ⌊s * 100⌋ - 100 * ⌊s⌋ = ⌊s * 100⌋ % 100 := by
    rw [Int.emod_def (⌊s * 100⌋) 100, e5]
  simp only [format_time, whole_minutes, whole_seconds_within_minute,
    hundredths_within_second]
  rw [e3, e4, e6, e2, e1]

/-- Example: `format_time 125.4 = "02:05:40"`. -/
lemma format_time_125_4 : format_time (627/5) = "02:05:40" := by
  have h1 : whole_minutes (627/5) = 2 := by
    unfold whole_minutes
    exact floor_eq_of _ 2 (by norm_num) (by norm_num)
  have h2 : whole_seconds_within_minute (627/5) = 5 := by
    unfold whole_seconds_within_minute
    rw [show ⌊(627/5 : ℚ)⌋ = 125 from floor_eq_of _ 125 (by norm_num) (by norm_num)]
    decide
  have h3 : hundredths_within_second (627/5) = 40 := by
    unfold hundredths_within_second
    rw [show ⌊(627/5 : ℚ) * 100⌋ = 12540 from
      floor_eq_of _ 12540 (by norm_num) (by norm_num)]
    decide
  rw [format_time_components, h1, h2, h3]
  decide

/-- Example: `format_time 7.0 = "00:07:00"`. -/
lemma format_time_7 : format_time 7 = "00:07:00" := by
  have h1 : whole_minutes 7 = 0 := by
    unfold whole_minutes
    exact floor_eq_of _ 0 (by norm_num) (by norm_num)
  have h2 : whole_seconds_within_minute 7 = 7 := by
    unfold whole_seconds_within_minute
    rw [show ⌊(7 : ℚ)⌋ = 7 from floor_eq_of _ 7 (by norm_num) (by norm_num)]
    decide
  have h3 : hundredths_within_second 7 = 0 := by
    unfold hundredths_within_second
    rw [show ⌊(7 : ℚ) * 100⌋ = 700 from floor_eq_of _ 700 (by norm_num) (by norm_num)]
    decide
  rw [format_time_components, h1, h2, h3]
  decide

/-- C8: `format_time` maps a non-negative number of seconds to
`mm:ss:hh` — whole minutes, whole seconds within the minute, and whole
hundredths within the second, each zero-padded to two digits — and in
particular `format_time 125.4 = "02:05:40"` and
`format_time 7.0 = "00:07:00"`. -/
theorem format_time_spec (s : ℚ) (h : 0 ≤ s) :
    format_time s = pad2 (whole_minutes s) ++ ":" ++
        pad2 (whole_seconds_within_minute s) ++ ":" ++
        pad2 (hundredths_within_second s) ∧
      format_time (627/5) = "02:05:40" ∧
      format_time 7 = "00:07:00" :=
  ⟨format_time_components s, format_time_125_4, format_time_7⟩

/-- Witness for C8 at 125.4 seconds. -/
theorem format_time_spec_witness :
    format_time (627/5) = pad2 (whole_minutes (627/5)) ++ ":" ++
        pad2 (whole_seconds_within_minute (627/5)) ++ ":" ++
        pad2 (hundredths_within_second (627/5)) ∧
      format_time (627/5) = "02:05:40" ∧
      format_time 7 = "00:07:00" :=
  format_time_spec (627/5) (by norm_num)

end RallySim
